import Mathlib

/-!
Shallow embedding of `src/py_utility/mysql_client.py` (class `MySQLClient`).

The network and the MySQL server are abstracted by an *environment*: a
function from the attempt index to the outcome the database produces for
that attempt.  Every operation is translated as a pure function returning
its result (`Except PyError _`, mirroring Python's raise/return) together
with the ordered list of observable effects (pool acquisitions, statement
executions, commits, rollbacks, cursor/connection closes, backoff sleeps)
the Python code performs on that environment.
-/

set_option maxRecDepth 8000

namespace PyUtility

/-- Exceptions that `mysql_client.py` raises or handles.
`operationalError` and `interfaceError` stand for `pymysql.OperationalError`
and `pymysql.InterfaceError`; `statementError` stands for any other server
error (syntax / constraint / type); `valueError` for Python `ValueError`;
`runtimeError` for Python `RuntimeError`.  The `Nat` field distinguishes
different exception instances. -/
inductive PyError where
  | operationalError (id : Nat)
  | interfaceError (id : Nat)
  | statementError (id : Nat)
  | valueError (msg : String)
  | runtimeError (msg : String)
deriving DecidableEq, Repr

/-- An error is transient exactly when the source catches it in the clause
`except (pymysql.OperationalError, pymysql.InterfaceError)`. -/
def PyError.transient : PyError → Bool
  | .operationalError _ => true
  | .interfaceError _ => true
  | _ => false

/-- A result row, as returned by `DictCursor`: column name to value. -/
abbrev Row := List (String × Int)

/-- Observable effects of the client, in program order. -/
inductive Event where
  | acquire
  | stmt (sql : String) (ps : List Int)
  | stmtMany (sql : String) (batch : Nat)
  | commit
  | rollback
  | cursorClose
  | connClose
  | sleep (delay : ℚ)
deriving DecidableEq, Repr

/-- The recorded backoff delays of a trace (`time.sleep` calls), in order. -/
def sleeps (evs : List Event) : List ℚ :=
  evs.filterMap fun ev =>
    match ev with
    | .sleep d => some d
    | _ => none

/-- Whether an event is a statement execution (used to describe transaction
bodies, which consist of statements run on the scope's cursor). -/
def Event.isStmt : Event → Bool
  | .stmt _ _ => true
  | _ => false

/-- Outcome the environment assigns to one attempt of a retried operation:
`_get_connection()` raises, `cursor.execute`/`conn.commit` raises, or the
attempt succeeds producing a value (for write statements, the pair
`(affected_rows, lastrowid)`; for queries, the row list). -/
inductive Attempt (α : Type) where
  | acquireFail (e : PyError)
  | stmtFail (e : PyError)
  | ok (v : α)
deriving DecidableEq, Repr

/-- The `for attempt in range(retry_count)` loop shared (textually repeated)
by `execute`, `execute_many`, `query` and `insert` in the source.
`okEvents` is the trace of one successful attempt, `failEvents` the trace of
an attempt whose statement raises (for writes this includes the `rollback`
of the inner `except` clause; for `query` it does not), `res` projects the
attempt's value to the operation's return value, and `msg` is the message of
the fallback `RuntimeError` raised when the loop body never ran.
A transient error sleeps `retry_delay * 2 ** attempt` when attempts remain
(`attempt < retry_count - 1`) and then retries; after the final transient
failure the last error is raised; a non-transient error is re-raised at
once. -/
def retryLoop {α β : Type} (env : Nat → Attempt α) (res : α → β)
    (okEvents failEvents : List Event) (retry_delay : ℚ) (msg : String) :
    Nat → Nat → Option PyError → Except PyError β × List Event
  | 0, _, lastError =>
      (.error (lastError.getD (.runtimeError msg)), [])
  | remaining + 1, attempt, _ =>
      match env attempt with
      | .ok v => (.ok (res v), okEvents)
      | .acquireFail e =>
          if e.transient then
            let pause : List Event :=
              if 0 < remaining then [.sleep (retry_delay * 2 ^ attempt)] else []
            let rest := retryLoop env res okEvents failEvents retry_delay msg
              remaining (attempt + 1) (some e)
            (rest.1, pause ++ rest.2)
          else
            (.error e, [])
      | .stmtFail e =>
          if e.transient then
            let pause : List Event :=
              if 0 < remaining then [.sleep (retry_delay * 2 ^ attempt)] else []
            let rest := retryLoop env res okEvents failEvents retry_delay msg
              remaining (attempt + 1) (some e)
            (rest.1, failEvents ++ pause ++ rest.2)
          else
            (.error e, failEvents)

/-- Translation of `MySQLClient.execute` (mysql_client.py lines 171-238):
per attempt, acquire a connection, run the statement, commit and return the
affected row count; on a statement error close the cursor, roll back, close
the connection and classify the error for the retry policy. -/
def execute (env : Nat → Attempt (Nat × Nat)) (sql : String) (ps : List Int)
    (retry_count : Nat) (retry_delay : ℚ) : Except PyError Nat × List Event :=
  retryLoop env Prod.fst
    [.acquire, .stmt sql ps, .commit, .cursorClose, .connClose]
    [.acquire, .stmt sql ps, .cursorClose, .rollback, .connClose]
    retry_delay "SQL执行失败" retry_count 0 none

/-- Translation of `MySQLClient.execute_many` (lines 240-317): an empty
`params_list` returns 0 before the loop; otherwise the same retry loop as
`execute`, running `cursor.executemany`. -/
def execute_many (env : Nat → Attempt (Nat × Nat)) (sql : String)
    (params_list : List (List Int)) (retry_count : Nat) (retry_delay : ℚ) :
    Except PyError Nat × List Event :=
  if params_list = [] then (.ok 0, [])
  else
    retryLoop env Prod.fst
      [.acquire, .stmtMany sql params_list.length, .commit, .cursorClose, .connClose]
      [.acquire, .stmtMany sql params_list.length, .cursorClose, .rollback, .connClose]
      retry_delay "批量SQL执行失败" retry_count 0 none

/-- Translation of `MySQLClient.query` (lines 319-383): like `execute` but
read-only — no commit and no rollback; the cursor and connection are closed
on both the success and the error path. -/
def query (env : Nat → Attempt (List Row)) (sql : String) (ps : List Int)
    (retry_count : Nat) (retry_delay : ℚ) :
    Except PyError (List Row) × List Event :=
  retryLoop env id
    [.acquire, .stmt sql ps, .cursorClose, .connClose]
    [.acquire, .stmt sql ps, .cursorClose, .connClose]
    retry_delay "SQL查询失败" retry_count 0 none

/-- Translation of `MySQLClient.query_one` (lines 385-407):
`results = self.query(...)` then `results[0] if results else None`. -/
def query_one (env : Nat → Attempt (List Row)) (sql : String) (ps : List Int)
    (retry_count : Nat) (retry_delay : ℚ) :
    Except PyError (Option Row) × List Event :=
  let results := query env sql ps retry_count retry_delay
  (results.1.map List.head?, results.2)

/-- The INSERT statement text `insert` builds (lines 463-465). -/
def insertSql (table : String) (data : List (String × Int)) : String :=
  let columns := String.intercalate ", " (data.map Prod.fst)
  let placeholders := String.intercalate ", " (data.map fun _ => "%s")
  "INSERT INTO " ++ table ++ " (" ++ columns ++ ") VALUES (" ++ placeholders ++ ")"

/-- The UPDATE statement text `update` builds (lines 546-547). -/
def updateSql (table : String) (data : List (String × Int))
    (whereClause : String) : String :=
  let setClause := String.intercalate ", " (data.map fun kv => kv.1 ++ " = %s")
  "UPDATE " ++ table ++ " SET " ++ setClause ++ " WHERE " ++ whereClause

/-- The DELETE statement text `delete` builds (line 586). -/
def deleteSql (table : String) (whereClause : String) : String :=
  "DELETE FROM " ++ table ++ " WHERE " ++ whereClause

/-- Translation of `MySQLClient.insert` (lines 439-514): empty `data` raises
`ValueError` before anything else; otherwise the same retry loop as
`execute`, but the attempt's success value is `cursor.lastrowid` rather
than the affected row count. -/
def insert (env : Nat → Attempt (Nat × Nat)) (table : String)
    (data : List (String × Int)) (retry_count : Nat) (retry_delay : ℚ) :
    Except PyError Nat × List Event :=
  if data = [] then (.error (.valueError "插入数据不能为空"), [])
  else
    retryLoop env Prod.snd
      [.acquire, .stmt (insertSql table data) (data.map Prod.snd), .commit,
        .cursorClose, .connClose]
      [.acquire, .stmt (insertSql table data) (data.map Prod.snd),
        .cursorClose, .rollback, .connClose]
      retry_delay "记录插入失败" retry_count 0 none

/-- Translation of `MySQLClient.update` (lines 516-558): empty `data` or
empty `where` raises `ValueError` before anything else; otherwise the call
is delegated to `execute` with the built SQL and parameters. -/
def update (env : Nat → Attempt (Nat × Nat)) (table : String)
    (data : List (String × Int)) (whereClause : String) (where_params : List Int)
    (retry_count : Nat) (retry_delay : ℚ) : Except PyError Nat × List Event :=
  if data = [] then (.error (.valueError "更新数据不能为空"), [])
  else if whereClause = "" then (.error (.valueError "WHERE条件不能为空"), [])
  else
    execute env (updateSql table data whereClause)
      (data.map Prod.snd ++ where_params) retry_count retry_delay

/-- Translation of `MySQLClient.delete` (lines 560-595): empty `where`
raises `ValueError` before anything else; otherwise the call is delegated
to `execute`. -/
def delete (env : Nat → Attempt (Nat × Nat)) (table : String)
    (whereClause : String) (where_params : List Int)
    (retry_count : Nat) (retry_delay : ℚ) : Except PyError Nat × List Event :=
  if whereClause = "" then (.error (.valueError "WHERE条件不能为空，防止误删全表"), [])
  else
    execute env (deleteSql table whereClause) where_params retry_count retry_delay

/-- Translation of `MySQLClient.transaction` (lines 409-437).  `acq` is the
outcome of `self._get_connection()`, `bodyRes` the outcome of the caller's
`yield`ed block, `bodyEvents` the statements that block ran on the scope's
cursor, and `commitErr` whether `conn.commit()` itself raises after a
successful body.  On a body (or commit) error, `rollback` is issued, then
the cursor and the connection are closed by `finally`, and the error is
re-raised unchanged. -/
def transaction {α : Type} (acq : Except PyError Unit) (bodyRes : Except PyError α)
    (bodyEvents : List Event) (commitErr : Option PyError) :
    Except PyError α × List Event :=
  match acq with
  | .error e => (.error e, [])
  | .ok _ =>
      match bodyRes with
      | .error e =>
          (.error e, .acquire :: (bodyEvents ++ [.rollback, .cursorClose, .connClose]))
      | .ok a =>
          match commitErr with
          | none =>
              (.ok a, .acquire :: (bodyEvents ++ [.commit, .cursorClose, .connClose]))
          | some e =>
              (.error e, .acquire :: (bodyEvents ++ [.rollback, .cursorClose, .connClose]))

/-- Translation of `MySQLClient.ping` (lines 132-148): acquire a connection,
probe it with `conn.ping()`, close it in `finally`; any exception anywhere
is caught and turned into `False`. -/
def ping (acq : Except PyError Unit) (probe : Except PyError Unit) :
    Bool × List Event :=
  match acq with
  | .error _ => (false, [])
  | .ok _ =>
      match probe with
      | .ok _ => (true, [.acquire, .connClose])
      | .error _ => (false, [.acquire, .connClose])

/-- The pool-related state of a `MySQLClient`: `pool` is `self._pool`
(`none` is Python `None`; `some g` a live `PooledDB` with generation `g`),
`nextGen` numbers the pools created so far. -/
structure ClientState where
  pool : Option Nat
  nextGen : Nat
deriving DecidableEq, Repr

/-- Translation of `MySQLClient.close` (lines 597-602): if a pool exists it
is closed and `self._pool` is set to `None`. -/
def close (s : ClientState) : ClientState :=
  if s.pool.isSome then { pool := none, nextGen := s.nextGen } else s

/-- Translation of `MySQLClient._init_pool` (lines 88-113): constructing
`PooledDB` either succeeds, installing a fresh pool, or raises. -/
def init_pool (initOk : Bool) (s : ClientState) : Except PyError ClientState :=
  if initOk then .ok { pool := some s.nextGen, nextGen := s.nextGen + 1 }
  else .error (.operationalError 0)

/-- Translation of `MySQLClient._get_connection` (lines 115-130): if
`self._pool is None` the pool is re-created by `_init_pool`, then
`self._pool.connection()` is returned.  `connRes` is the outcome of
`connection()`; on success the connection id and the (possibly updated)
client state are returned. -/
def get_connection (initOk : Bool) (connRes : Except PyError Nat)
    (s : ClientState) : Except PyError (Nat × ClientState) :=
  match s.pool with
  | some _ =>
      match connRes with
      | .ok c => .ok (c, s)
      | .error e => .error e
  | none =>
      match init_pool initOk s with
      | .error e => .error e
      | .ok s2 =>
          match connRes with
          | .ok c => .ok (c, s2)
          | .error e => .error e

/-- Modelled from the spec: an `insert` that, per the sentence "All three
delegate to Statement Executor and inherit its retry semantics", validates
its input, builds the INSERT statement and then delegates execution to
`execute`, returning the executor's result.  This definition follows the
spec's words; the source's `insert` is the definition `insert` above. -/
def insert_delegating (env : Nat → Attempt (Nat × Nat)) (table : String)
    (data : List (String × Int)) (retry_count : Nat) (retry_delay : ℚ) :
    Except PyError Nat × List Event :=
  if data = [] then (.error (.valueError "插入数据不能为空"), [])
  else execute env (insertSql table data) (data.map Prod.snd) retry_count retry_delay

theorem sleeps_append (xs ys : List Event) :
    sleeps (xs ++ ys) = sleeps xs ++ sleeps ys :=
  List.filterMap_append xs ys _

theorem sleeps_sleep_cons (d : ℚ) (evs : List Event) :
    sleeps (.sleep d :: evs) = d :: sleeps evs := rfl

theorem sleeps_nil : sleeps [] = [] := rfl

/-- The trace of the retry loop does not depend on the result projection nor
on the fallback error message (they only affect the returned value). -/
theorem retryLoop_trace_congr {α β γ : Type} (env : Nat → Attempt α)
    (res1 : α → β) (res2 : α → γ) (okE failE : List Event) (rd : ℚ)
    (m1 m2 : String) :
    ∀ remaining attempt le1 le2,
      (retryLoop env res1 okE failE rd m1 remaining attempt le1).2 =
      (retryLoop env res2 okE failE rd m2 remaining attempt le2).2 := by
  intro remaining
  induction remaining with
  | zero => intro attempt le1 le2; rfl
  | succ r ih =>
      intro attempt le1 le2
      simp only [retryLoop]
      cases env attempt with
      | ok v => rfl
      | acquireFail e =>
          by_cases ht : e.transient <;>
            simp [ht, ih (attempt + 1) (some e) (some e)]
      | stmtFail e =>
          by_cases ht : e.transient <;>
            simp [ht, ih (attempt + 1) (some e) (some e)]

/-- If the first `k` attempts fail with transient statement errors and
attempt `k` succeeds (with `k` strictly below the attempt budget), the loop
returns the success result and the recorded backoff delays are exactly
`rd * 2 ^ i` for the failed attempts `i`. -/
theorem retryLoop_ok_after {α β : Type} (env : Nat → Attempt α) (res : α → β)
    (okE failE : List Event) (rd : ℚ) (msg : String) (errs : Nat → PyError)
    (v : α) (hok : sleeps okE = []) (hfail : sleeps failE = []) :
    ∀ k remaining attempt le, k < remaining →
      (∀ i, i < k → env (attempt + i) = .stmtFail (errs (attempt + i)) ∧
        (errs (attempt + i)).transient = true) →
      env (attempt + k) = .ok v →
      (retryLoop env res okE failE rd msg remaining attempt le).1 = .ok (res v) ∧
      sleeps (retryLoop env res okE failE rd msg remaining attempt le).2 =
        (List.range k).map (fun i => rd * 2 ^ (attempt + i)) := by
  intro k
  induction k with
  | zero =>
      intro remaining attempt le hk hprev hsucc
      match remaining, hk with
      | r + 1, _ =>
        have henv : env attempt = .ok v := by simpa using hsucc
        simp only [retryLoop, henv]
        simp [hok]
  | succ k ih =>
      intro remaining attempt le hk hprev hsucc
      match remaining, hk with
      | r + 1, hk =>
        have hr : k < r := by omega
        have h0 := hprev 0 (by omega)
        have henv : env attempt = .stmtFail (errs attempt) := by simpa using h0.1
        have ht : (errs attempt).transient = true := by simpa using h0.2
        have hp : ∀ i, i < k → env (attempt + 1 + i) =
            .stmtFail (errs (attempt + 1 + i)) ∧
            (errs (attempt + 1 + i)).transient = true := by
          intro i hi
          have hthis := hprev (i + 1) (by omega)
          have heq : attempt + (i + 1) = attempt + 1 + i := by omega
          rw [heq] at hthis
          exact hthis
        have hs : env (attempt + 1 + k) = .ok v := by
          have heq : attempt + (k + 1) = attempt + 1 + k := by omega
          rw [← heq]
          exact hsucc
        have hrec := ih r (attempt + 1) (some (errs attempt)) hr hp hs
        have hrpos : 0 < r := by omega
        constructor
        · simp only [retryLoop, henv, ht, if_true]
          simpa using hrec.1
        · simp only [retryLoop, henv, ht, if_true, if_pos hrpos,
            List.singleton_append]
          rw [sleeps_append, sleeps_append, hfail, sleeps_sleep_cons,
            sleeps_nil, hrec.2]
          rw [List.range_succ_eq_map, List.map_cons, List.map_map]
          simp only [List.nil_append, Nat.add_zero, List.singleton_append]
          congr 1
          apply List.map_congr_left
          intro i hi
          simp only [Function.comp_apply]
          congr 1
          congr 1
          omega

/-- If every one of the `r + 1` attempts fails with a transient statement
error, the loop raises the last observed error and acquires exactly one
connection per attempt. -/
theorem retryLoop_exhaust {α β : Type} (env : Nat → Attempt α) (res : α → β)
    (okE failE : List Event) (rd : ℚ) (msg : String) (errs : Nat → PyError)
    (hacq : failE.count .acquire = 1) :
    ∀ r attempt le,
      (∀ i, i < r + 1 → env (attempt + i) = .stmtFail (errs (attempt + i)) ∧
        (errs (attempt + i)).transient = true) →
      (retryLoop env res okE failE rd msg (r + 1) attempt le).1 =
        .error (errs (attempt + r)) ∧
      (retryLoop env res okE failE rd msg (r + 1) attempt le).2.count .acquire
        = r + 1 := by
  intro r
  induction r with
  | zero =>
      intro attempt le hfailAll
      have h0 := hfailAll 0 (by omega)
      have henv : env attempt = .stmtFail (errs attempt) := by simpa using h0.1
      have ht : (errs attempt).transient = true := by simpa using h0.2
      simp [retryLoop, henv, ht, hacq]
  | succ r ih =>
      intro attempt le hfailAll
      have h0 := hfailAll 0 (by omega)
      have henv : env attempt = .stmtFail (errs attempt) := by simpa using h0.1
      have ht : (errs attempt).transient = true := by simpa using h0.2
      have hp : ∀ i, i < r + 1 → env (attempt + 1 + i) =
          .stmtFail (errs (attempt + 1 + i)) ∧
          (errs (attempt + 1 + i)).transient = true := by
        intro i hi
        have hthis := hfailAll (i + 1) (by omega)
        have heq : attempt + (i + 1) = attempt + 1 + i := by omega
        rw [heq] at hthis
        exact hthis
      have hrec := ih (attempt + 1) (some (errs attempt)) hp
      simp only [retryLoop] at hrec
      constructor
      · simp only [retryLoop, henv, ht, if_true]
        have heq : attempt + (r + 1) = attempt + 1 + r := by omega
        rw [heq]
        exact hrec.1
      · simp only [retryLoop, henv, ht, if_true]
        simp only [List.count_append]
        rw [hrec.2]
        simp [List.count_append, hacq]
        omega

/-- A non-transient statement error ends the loop at once: the attempt's
trace is the single failed attempt and the error is re-raised. -/
theorem retryLoop_stmtFail_fatal {α β : Type} (env : Nat → Attempt α)
    (res : α → β) (okE failE : List Event) (rd : ℚ) (msg : String)
    (remaining attempt : Nat) (le : Option PyError) (e : PyError)
    (henv : env attempt = .stmtFail e) (ht : e.transient = false) :
    retryLoop env res okE failE rd msg (remaining + 1) attempt le =
      (.error e, failE) := by
  simp [retryLoop, henv, ht]

/-- C1, counterexample: the claim says acquisition after `close()` fails with
`PoolClosed`.  On the code, at the concrete client state with a live pool of
generation 0, `close` clears the pool, yet the next `_get_connection`
silently builds a fresh pool (generation 1) and returns a connection. -/
theorem C1_counterexample :
    (close ⟨some 0, 1⟩).pool = none ∧
    get_connection true (.ok 5) (close ⟨some 0, 1⟩) = .ok (5, ⟨some 1, 2⟩) :=
  ⟨rfl, rfl⟩

/-- C1 (amended): for every client with a live pool, `close()` clears the
pool reference, and a subsequent connection acquisition does not fail —
`_get_connection` silently re-initializes the pool (the class's advertised
auto-reconnect) and, when pool creation and `connection()` succeed, returns
a connection from the fresh pool. -/
theorem C1_close_then_acquire_reinitializes (s : ClientState) (g c : Nat)
    (h : s.pool = some g) :
    (close s).pool = none ∧
    get_connection true (.ok c) (close s) =
      .ok (c, { pool := some s.nextGen, nextGen := s.nextGen + 1 }) := by
  have hsome : s.pool.isSome = true := by rw [h]; rfl
  constructor
  · simp [close, hsome]
  · simp [close, hsome, get_connection, init_pool]

/-- C1, witness for the amended theorem at a concrete state. -/
theorem C1_witness :
    (close ⟨some 3, 4⟩).pool = none ∧
    get_connection true (.ok 9) (close ⟨some 3, 4⟩) = .ok (9, ⟨some 4, 5⟩) :=
  C1_close_then_acquire_reinitializes ⟨some 3, 4⟩ 3 9 rfl

/-- C2: for each operation wrapped by the retry policy (`execute`,
`execute_many`, `query`, `insert`), if the first `k` attempts fail with
transient errors and attempt `k` succeeds within the budget, the operation
returns that attempt's success result and the recorded delays are exactly
`retry_delay * 2 ^ i` for each failed attempt `i`. -/
theorem C2_transient_retry_backoff
    (envW : Nat → Attempt (Nat × Nat)) (envQ : Nat → Attempt (List Row))
    (sql : String) (ps : List Int) (params_list : List (List Int))
    (table : String) (data : List (String × Int)) (rd : ℚ)
    (retry_count k : Nat) (errs : Nat → PyError) (n lid : Nat) (rows : List Row)
    (hk : k < retry_count)
    (hW : ∀ i, i < k → envW i = .stmtFail (errs i) ∧ (errs i).transient = true)
    (hWk : envW k = .ok (n, lid))
    (hQ : ∀ i, i < k → envQ i = .stmtFail (errs i) ∧ (errs i).transient = true)
    (hQk : envQ k = .ok rows)
    (hpl : params_list ≠ []) (hdata : data ≠ []) :
    (execute envW sql ps retry_count rd).1 = .ok n ∧
    sleeps (execute envW sql ps retry_count rd).2 =
      (List.range k).map (fun i => rd * 2 ^ i) ∧
    (execute_many envW sql params_list retry_count rd).1 = .ok n ∧
    sleeps (execute_many envW sql params_list retry_count rd).2 =
      (List.range k).map (fun i => rd * 2 ^ i) ∧
    (query envQ sql ps retry_count rd).1 = .ok rows ∧
    sleeps (query envQ sql ps retry_count rd).2 =
      (List.range k).map (fun i => rd * 2 ^ i) ∧
    (insert envW table data retry_count rd).1 = .ok lid ∧
    sleeps (insert envW table data retry_count rd).2 =
      (List.range k).map (fun i => rd * 2 ^ i) := by
  have hmap : (List.range k).map (fun i => rd * 2 ^ (0 + i)) =
      (List.range k).map (fun i => rd * 2 ^ i) := by
    apply List.map_congr_left
    intro i hi
    rw [Nat.zero_add]
  have hallW : ∀ i, i < k → envW (0 + i) = .stmtFail (errs (0 + i)) ∧
      (errs (0 + i)).transient = true := by
    intro i hi
    rw [Nat.zero_add]
    exact hW i hi
  have hallQ : ∀ i, i < k → envQ (0 + i) = .stmtFail (errs (0 + i)) ∧
      (errs (0 + i)).transient = true := by
    intro i hi
    rw [Nat.zero_add]
    exact hQ i hi
  have hWk0 : envW (0 + k) = .ok (n, lid) := by rw [Nat.zero_add]; exact hWk
  have hQk0 : envQ (0 + k) = .ok rows := by rw [Nat.zero_add]; exact hQk
  have hex := retryLoop_ok_after envW Prod.fst
    [.acquire, .stmt sql ps, .commit, .cursorClose, .connClose]
    [.acquire, .stmt sql ps, .cursorClose, .rollback, .connClose]
    rd "SQL执行失败" errs (n, lid) rfl rfl k retry_count 0 none hk hallW hWk0
  have hem := retryLoop_ok_after envW Prod.fst
    [.acquire, .stmtMany sql params_list.length, .commit, .cursorClose, .connClose]
    [.acquire, .stmtMany sql params_list.length, .cursorClose, .rollback, .connClose]
    rd "批量SQL执行失败" errs (n, lid) rfl rfl k retry_count 0 none hk hallW hWk0
  have hq := retryLoop_ok_after envQ id
    [.acquire, .stmt sql ps, .cursorClose, .connClose]
    [.acquire, .stmt sql ps, .cursorClose, .connClose]
    rd "SQL查询失败" errs rows rfl rfl k retry_count 0 none hk hallQ hQk0
  have hins := retryLoop_ok_after envW Prod.snd
    [.acquire, .stmt (insertSql table data) (data.map Prod.snd), .commit,
      .cursorClose, .connClose]
    [.acquire, .stmt (insertSql table data) (data.map Prod.snd),
      .cursorClose, .rollback, .connClose]
    rd "记录插入失败" errs (n, lid) rfl rfl k retry_count 0 none hk hallW hWk0
  have hemEq : execute_many envW sql params_list retry_count rd =
      retryLoop envW Prod.fst
        [.acquire, .stmtMany sql params_list.length, .commit, .cursorClose, .connClose]
        [.acquire, .stmtMany sql params_list.length, .cursorClose, .rollback, .connClose]
        rd "批量SQL执行失败" retry_count 0 none := by
    simp [execute_many, hpl]
  have hinsEq : insert envW table data retry_count rd =
      retryLoop envW Prod.snd
        [.acquire, .stmt (insertSql table data) (data.map Prod.snd), .commit,
          .cursorClose, .connClose]
        [.acquire, .stmt (insertSql table data) (data.map Prod.snd),
          .cursorClose, .rollback, .connClose]
        rd "记录插入失败" retry_count 0 none := by
    simp [insert, hdata]
  refine ⟨hex.1, hex.2.trans hmap, ?_, ?_, hq.1, hq.2.trans hmap, ?_, ?_⟩
  · rw [hemEq]
    exact hem.1
  · rw [hemEq]
    exact hem.2.trans hmap
  · rw [hinsEq]
    exact hins.1
  · rw [hinsEq]
    exact hins.2.trans hmap

/-- C2, witness: transient failures on attempts 0 and 1, success on
attempt 2, with `retry_count = 3` and base delay 1/2. -/
theorem C2_witness :
    (execute (fun i => if i = 0 then .stmtFail (.operationalError 1)
        else if i = 1 then .stmtFail (.interfaceError 2) else .ok (4, 9))
      "U" [] 3 (1/2)).1 = .ok 4 ∧
    sleeps (execute (fun i => if i = 0 then .stmtFail (.operationalError 1)
        else if i = 1 then .stmtFail (.interfaceError 2) else .ok (4, 9))
      "U" [] 3 (1/2)).2 = (List.range 2).map (fun i => (1/2 : ℚ) * 2 ^ i) ∧
    (execute_many (fun i => if i = 0 then .stmtFail (.operationalError 1)
        else if i = 1 then .stmtFail (.interfaceError 2) else .ok (4, 9))
      "U" [[3]] 3 (1/2)).1 = .ok 4 ∧
    sleeps (execute_many (fun i => if i = 0 then .stmtFail (.operationalError 1)
        else if i = 1 then .stmtFail (.interfaceError 2) else .ok (4, 9))
      "U" [[3]] 3 (1/2)).2 = (List.range 2).map (fun i => (1/2 : ℚ) * 2 ^ i) ∧
    (query (fun i => if i = 0 then .stmtFail (.operationalError 1)
        else if i = 1 then .stmtFail (.interfaceError 2) else .ok [[("id", 7)]])
      "S" [] 3 (1/2)).1 = .ok [[("id", 7)]] ∧
    sleeps (query (fun i => if i = 0 then .stmtFail (.operationalError 1)
        else if i = 1 then .stmtFail (.interfaceError 2) else .ok [[("id", 7)]])
      "S" [] 3 (1/2)).2 = (List.range 2).map (fun i => (1/2 : ℚ) * 2 ^ i) ∧
    (insert (fun i => if i = 0 then .stmtFail (.operationalError 1)
        else if i = 1 then .stmtFail (.interfaceError 2) else .ok (4, 9))
      "t" [("a", 5)] 3 (1/2)).1 = .ok 9 ∧
    sleeps (insert (fun i => if i = 0 then .stmtFail (.operationalError 1)
        else if i = 1 then .stmtFail (.interfaceError 2) else .ok (4, 9))
      "t" [("a", 5)] 3 (1/2)).2 = (List.range 2).map (fun i => (1/2 : ℚ) * 2 ^ i) :=
  C2_transient_retry_backoff
    (fun i => if i = 0 then .stmtFail (.operationalError 1)
      else if i = 1 then .stmtFail (.interfaceError 2) else .ok (4, 9))
    (fun i => if i = 0 then .stmtFail (.operationalError 1)
      else if i = 1 then .stmtFail (.interfaceError 2) else .ok [[("id", 7)]])
    "U" [] [[3]] "t" [("a", 5)] (1/2) 3 2
    (fun i => if i = 0 then .operationalError 1 else .interfaceError 2)
    4 9 [[("id", 7)]] (by omega)
    (by intro i hi
        interval_cases i <;> exact ⟨rfl, rfl⟩)
    rfl
    (by intro i hi
        interval_cases i <;> exact ⟨rfl, rfl⟩)
    rfl (by decide) (by decide)

/-- C3: on an exception raised in the transaction scope body after zero or
more successful statements, exactly one rollback and zero commits are
issued, the original error is re-raised unchanged, and the borrowed
connection and its cursor are each released exactly once. -/
theorem C3_transaction_error_rolls_back {α : Type} (e : PyError)
    (bodyEvents : List Event) (commitErr : Option PyError)
    (hbody : ∀ ev ∈ bodyEvents, ev.isStmt = true) :
    (transaction (.ok ()) (Except.error e : Except PyError α) bodyEvents commitErr).1
      = .error e ∧
    (transaction (.ok ()) (Except.error e : Except PyError α) bodyEvents
      commitErr).2.count .rollback = 1 ∧
    (transaction (.ok ()) (Except.error e : Except PyError α) bodyEvents
      commitErr).2.count .commit = 0 ∧
    (transaction (.ok ()) (Except.error e : Except PyError α) bodyEvents
      commitErr).2.count .connClose = 1 ∧
    (transaction (.ok ()) (Except.error e : Except PyError α) bodyEvents
      commitErr).2.count .cursorClose = 1 := by
  have hcount : ∀ a : Event, a.isStmt = false → bodyEvents.count a = 0 := by
    intro a ha
    rw [List.count_eq_zero]
    intro hmem
    have hstmt := hbody a hmem
    rw [hstmt] at ha
    exact absurd ha (by simp)
  refine ⟨rfl, ?_, ?_, ?_, ?_⟩ <;>
    simp [transaction, List.count_cons, List.count_append,
      hcount Event.rollback rfl, hcount Event.commit rfl,
      hcount Event.connClose rfl, hcount Event.cursorClose rfl]

/-- C3, witness: a statement error after one successful statement. -/
theorem C3_witness :
    (transaction (.ok ()) (Except.error (PyError.statementError 7) : Except PyError Nat)
      [.stmt "INSERT INTO t (a) VALUES (%s)" [1]] none).1
      = .error (.statementError 7) ∧
    (transaction (.ok ()) (Except.error (PyError.statementError 7) : Except PyError Nat)
      [.stmt "INSERT INTO t (a) VALUES (%s)" [1]] none).2.count .rollback = 1 ∧
    (transaction (.ok ()) (Except.error (PyError.statementError 7) : Except PyError Nat)
      [.stmt "INSERT INTO t (a) VALUES (%s)" [1]] none).2.count .commit = 0 ∧
    (transaction (.ok ()) (Except.error (PyError.statementError 7) : Except PyError Nat)
      [.stmt "INSERT INTO t (a) VALUES (%s)" [1]] none).2.count .connClose = 1 ∧
    (transaction (.ok ()) (Except.error (PyError.statementError 7) : Except PyError Nat)
      [.stmt "INSERT INTO t (a) VALUES (%s)" [1]] none).2.count .cursorClose = 1 :=
  C3_transaction_error_rolls_back (.statementError 7)
    [.stmt "INSERT INTO t (a) VALUES (%s)" [1]] none (by decide)

/-- C4: a non-transient error on the first attempt of `execute` is raised
immediately: one connection acquisition, one rollback, no retry and no
backoff sleep. -/
theorem C4_nontransient_immediate (env : Nat → Attempt (Nat × Nat))
    (sql : String) (ps : List Int) (retry_count : Nat) (rd : ℚ) (e : PyError)
    (hrc : 0 < retry_count) (h0 : env 0 = .stmtFail e)
    (ht : e.transient = false) :
    (execute env sql ps retry_count rd).1 = .error e ∧
    (execute env sql ps retry_count rd).2.count .acquire = 1 ∧
    (execute env sql ps retry_count rd).2.count .rollback = 1 ∧
    sleeps (execute env sql ps retry_count rd).2 = [] := by
  match retry_count, hrc with
  | r + 1, _ =>
    have hstep := retryLoop_stmtFail_fatal env Prod.fst
      [.acquire, .stmt sql ps, .commit, .cursorClose, .connClose]
      [.acquire, .stmt sql ps, .cursorClose, .rollback, .connClose]
      rd "SQL执行失败" r 0 none e h0 ht
    have hexEq : execute env sql ps (r + 1) rd =
        (.error e, [.acquire, .stmt sql ps, .cursorClose, .rollback, .connClose]) :=
      hstep
    rw [hexEq]
    exact ⟨rfl, rfl, rfl, rfl⟩

/-- C4, witness: a statement error (syntax/constraint) on attempt 1. -/
theorem C4_witness :
    (execute (fun _ => .stmtFail (.statementError 3)) "BAD SQL" [] 3 (1/2)).1
      = .error (.statementError 3) ∧
    (execute (fun _ => .stmtFail (.statementError 3)) "BAD SQL" [] 3
      (1/2)).2.count .acquire = 1 ∧
    (execute (fun _ => .stmtFail (.statementError 3)) "BAD SQL" [] 3
      (1/2)).2.count .rollback = 1 ∧
    sleeps (execute (fun _ => .stmtFail (.statementError 3)) "BAD SQL" [] 3
      (1/2)).2 = [] :=
  C4_nontransient_immediate (fun _ => .stmtFail (.statementError 3))
    "BAD SQL" [] 3 (1/2) (.statementError 3) (by omega) rfl rfl

/-- C5: when all `retry_count` attempts of `execute` fail with transient
errors, the call raises the last observed error and exactly `retry_count`
connection acquisitions occurred. -/
theorem C5_retries_exhausted (env : Nat → Attempt (Nat × Nat)) (sql : String)
    (ps : List Int) (retry_count : Nat) (rd : ℚ) (errs : Nat → PyError)
    (hrc : 0 < retry_count)
    (hfail : ∀ i, i < retry_count →
      env i = .stmtFail (errs i) ∧ (errs i).transient = true) :
    (execute env sql ps retry_count rd).1 = .error (errs (retry_count - 1)) ∧
    (execute env sql ps retry_count rd).2.count .acquire = retry_count := by
  match retry_count, hrc with
  | r + 1, _ =>
    have hall : ∀ i, i < r + 1 → env (0 + i) = .stmtFail (errs (0 + i)) ∧
        (errs (0 + i)).transient = true := by
      intro i hi
      rw [Nat.zero_add]
      exact hfail i hi
    have h := retryLoop_exhaust env Prod.fst
      [.acquire, .stmt sql ps, .commit, .cursorClose, .connClose]
      [.acquire, .stmt sql ps, .cursorClose, .rollback, .connClose]
      rd "SQL执行失败" errs rfl r 0 none hall
    constructor
    · have h1 := h.1
      rw [Nat.zero_add] at h1
      exact h1
    · exact h.2

/-- C5, witness: transient errors on all 3 attempts; the last one is
raised and 3 acquisitions occurred. -/
theorem C5_witness :
    (execute (fun i => .stmtFail (.operationalError i)) "U" [] 3 (1/2)).1
      = .error (.operationalError 2) ∧
    (execute (fun i => .stmtFail (.operationalError i)) "U" [] 3
      (1/2)).2.count .acquire = 3 :=
  C5_retries_exhausted (fun i => .stmtFail (.operationalError i)) "U" [] 3
    (1/2) (fun i => .operationalError i) (by omega)
    (fun i hi => ⟨rfl, rfl⟩)

/-- C6: the write helpers reject degenerate input — `insert` with empty
`data`, `update` with empty `data` or empty `where`, `delete` with empty
`where` — with a validation `ValueError` and an empty effect trace: no
connection is acquired and no network I/O happens. -/
theorem C6_validation_before_io (env : Nat → Attempt (Nat × Nat))
    (table : String) (kv : String × Int) (data : List (String × Int))
    (whereClause : String) (where_params : List Int) (retry_count : Nat)
    (rd : ℚ) :
    insert env table [] retry_count rd =
      (.error (.valueError "插入数据不能为空"), []) ∧
    update env table [] whereClause where_params retry_count rd =
      (.error (.valueError "更新数据不能为空"), []) ∧
    update env table (kv :: data) "" where_params retry_count rd =
      (.error (.valueError "WHERE条件不能为空"), []) ∧
    delete env table "" where_params retry_count rd =
      (.error (.valueError "WHERE条件不能为空，防止误删全表"), []) := by
  refine ⟨rfl, rfl, ?_, rfl⟩
  simp [update]

/-- C7, counterexample: the claim says `insert` delegates its statement
execution to `execute`.  At a concrete input whose attempt succeeds with
1 affected row and server-generated id 42, the source's `insert` returns
42 (`cursor.lastrowid`) while the spec's delegating insert would return
`execute`'s result 1, so `insert` does not delegate to `execute`. -/
theorem C7_counterexample :
    (insert (fun _ => .ok (1, 42)) "t" [("a", 1)] 3 (1/2)).1 = .ok 42 ∧
    (insert_delegating (fun _ => .ok (1, 42)) "t" [("a", 1)] 3 (1/2)).1 = .ok 1 :=
  ⟨rfl, rfl⟩

/-- C7 (amended): `update` and `delete` delegate to `execute` and so
inherit its retry semantics exactly; `insert` does not call `execute` — it
implements the same retry loop inline (identical effect trace: acquisitions,
statements, rollbacks, backoff delays) but returns the server-generated row
id instead of the executor's affected-row count. -/
theorem C7_crud_delegation (env : Nat → Attempt (Nat × Nat)) (table : String)
    (data : List (String × Int)) (whereClause : String)
    (where_params : List Int) (retry_count : Nat) (rd : ℚ)
    (hd : data ≠ []) (hw : whereClause ≠ "") :
    update env table data whereClause where_params retry_count rd =
      execute env (updateSql table data whereClause)
        (data.map Prod.snd ++ where_params) retry_count rd ∧
    delete env table whereClause where_params retry_count rd =
      execute env (deleteSql table whereClause) where_params retry_count rd ∧
    (insert env table data retry_count rd).2 =
      (execute env (insertSql table data) (data.map Prod.snd)
        retry_count rd).2 := by
  refine ⟨?_, ?_, ?_⟩
  · simp [update, hd, hw]
  · simp [delete, hw]
  · simp only [insert, execute, if_neg hd]
    exact retryLoop_trace_congr env Prod.snd Prod.fst
      [.acquire, .stmt (insertSql table data) (data.map Prod.snd), .commit,
        .cursorClose, .connClose]
      [.acquire, .stmt (insertSql table data) (data.map Prod.snd),
        .cursorClose, .rollback, .connClose]
      rd "记录插入失败" "SQL执行失败" retry_count 0 none none

/-- C7, witness for the amended theorem at concrete inputs. -/
theorem C7_witness :
    update (fun _ => .ok (1, 42)) "t" [("a", 5)] "id = %s" [7] 3 (1/2) =
      execute (fun _ => .ok (1, 42)) (updateSql "t" [("a", 5)] "id = %s")
        [5, 7] 3 (1/2) ∧
    delete (fun _ => .ok (1, 42)) "t" "id = %s" [7] 3 (1/2) =
      execute (fun _ => .ok (1, 42)) (deleteSql "t" "id = %s") [7] 3 (1/2) ∧
    (insert (fun _ => .ok (1, 42)) "t" [("a", 5)] 3 (1/2)).2 =
      (execute (fun _ => .ok (1, 42)) (insertSql "t" [("a", 5)]) [5] 3 (1/2)).2 :=
  C7_crud_delegation (fun _ => .ok (1, 42)) "t" [("a", 5)] "id = %s" [7] 3
    (1/2) (by decide) (by decide)

/-- C8: `execute_many` with an empty `params_list` returns 0 with an empty
effect trace — no pool acquisition and no network I/O. -/
theorem C8_execute_many_empty (env : Nat → Attempt (Nat × Nat)) (sql : String)
    (retry_count : Nat) (rd : ℚ) :
    execute_many env sql [] retry_count rd = (.ok 0, []) := rfl

/-- C9: `query_one` returns the first row of `query`'s result when that
result is non-empty, and the explicit absent marker `none` (not an error)
when the result set is empty. -/
theorem C9_query_one_first_or_none (env : Nat → Attempt (List Row))
    (sql : String) (ps : List Int) (retry_count : Nat) (rd : ℚ) :
    (∀ r rest evs, query env sql ps retry_count rd = (.ok (r :: rest), evs) →
      query_one env sql ps retry_count rd = (.ok (some r), evs)) ∧
    (∀ evs, query env sql ps retry_count rd = (.ok [], evs) →
      query_one env sql ps retry_count rd = (.ok none, evs)) := by
  constructor
  · intro r rest evs h
    simp [query_one, h, Except.map]
  · intro evs h
    simp [query_one, h, Except.map]

/-- C9, witness: a one-row result yields its first row. -/
theorem C9_witness :
    query_one (fun _ => .ok [[("id", 7)]]) "S" [] 3 (1/2) =
      (.ok (some [("id", 7)]), [.acquire, .stmt "S" [], .cursorClose, .connClose]) :=
  (C9_query_one_first_or_none (fun _ => .ok [[("id", 7)]]) "S" [] 3 (1/2)).1
    [("id", 7)] [] [.acquire, .stmt "S" [], .cursorClose, .connClose] rfl

/-- C10: `ping` never propagates an exception (its translation is total
with a `Bool` result): it returns `true` exactly when acquisition and the
liveness probe both succeed, `false` on any failure, and every acquired
connection is released before it returns (equal acquire/release counts in
the trace). -/
theorem C10_ping_total (acq probe : Except PyError Unit) :
    ((ping acq probe).1 = true ↔ acq = .ok () ∧ probe = .ok ()) ∧
    (ping acq probe).2.count .acquire = (ping acq probe).2.count .connClose := by
  cases acq with
  | error e => simp [ping]
  | ok u =>
      cases u
      cases probe with
      | error e2 => simp [ping]
      | ok u2 =>
          cases u2
          simp [ping]

end PyUtility
